import Mathlib

/-!
Shallow embedding of `src/extensions/kope-java/src/extension.ts`: the Java
runtime discovery / validation logic (`validateJavaPath`,
`findValidJavaRuntime`), and the process-supervisor lifecycle functions
(`launchLanguageServer`, `restartLanguageServer`, `deactivate`).

Modelling choices:
* Filesystem paths are plain strings; `path.join` is modelled as
  backslash-joining (the source targets Windows: `java.exe`, `where java`,
  `\r\n` line splits, `config_win`), and Node's `path.dirname` as dropping
  the last backslash-separated component.
* `fs.existsSync` is an oracle `FileSystem.pathExists : String → Bool`.
* `execPromise` is an oracle keyed on the exact command string, returning
  `none` when the underlying `cp.exec` reports an error (the promise
  rejects) and `some (stdout, stderr)` on success.
* The `vscode` side effects (console logging, notifications, process
  start/stop, directory creation) are recorded as an explicit `Event` list;
  the module-level `client` variable is an `Option String` holding the
  executable path the live client was created with.
-/

/-- Result shape of `execPromise`: `none` models a rejected promise,
`some (stdout, stderr)` a resolution with the captured channels. -/
structure ExecOracle where
  run : String → Option (String × String)

/-- Oracle for `fs.existsSync`. -/
structure FileSystem where
  pathExists : String → Bool

/-- `path.join a b` (Windows-style separator). -/
def pjoin (a b : String) : String := a ++ "\\" ++ b

/-- Split a character list on each backslash. -/
def splitBackslash : List Char → List (List Char)
  | [] => [[]]
  | '\\' :: rest => [] :: splitBackslash rest
  | c :: rest =>
    match splitBackslash rest with
    | t :: ts => (c :: t) :: ts
    | [] => [[c]]

/-- Split a character list on each CRLF pair (JS `split('\r\n')`). -/
def splitCRLF : List Char → List (List Char)
  | [] => [[]]
  | '\r' :: '\n' :: rest => [] :: splitCRLF rest
  | c :: rest =>
    match splitCRLF rest with
    | t :: ts => (c :: t) :: ts
    | [] => [[c]]

/-- ASCII whitespace, for JS `String.prototype.trim`. -/
def isWhitespaceChar (c : Char) : Bool :=
  c = ' ' || c = '\t' || c = '\n' || c = '\r'

/-- JS `s.trim()`: strip whitespace from both ends. -/
def trimChars (s : List Char) : List Char :=
  ((s.dropWhile isWhitespaceChar).reverse.dropWhile isWhitespaceChar).reverse

/-- Node `path.dirname` on a backslash-separated path: drop the last
component; a separator-free path dirnames to `"."`. -/
def dirname (p : String) : String :=
  let parts := splitBackslash p.data
  if parts.length ≤ 1 then "."
  else String.mk (List.intercalate ['\\'] parts.dropLast)

/-- `const MIN_JAVA_VERSION = 17`. -/
def MIN_JAVA_VERSION : Nat := 17

/-- `const MAX_JAVA_VERSION = 99`. -/
def MAX_JAVA_VERSION : Nat := 99

/-- Longest run of decimal digits at the head of the character list,
together with the remainder (the greedy `\d+` step of the regex). -/
def takeDigits : List Char → List Char × List Char
  | [] => ([], [])
  | c :: cs =>
    if c.isDigit then
      let p := takeDigits cs
      (c :: p.1, p.2)
    else ([], c :: cs)

/-- `parseInt(s, 10)` on a string of decimal digits. -/
def parseDigits (ds : List Char) : Nat :=
  ds.foldl (fun n c => 10 * n + (c.toNat - '0'.toNat)) 0

/-- The capture group of the first match of the regex `/"(\d+)\./` in the
given text: a double quote, then one or more digits (captured), then a
literal dot; the scan advances one character on a failed attempt, exactly
as the JS regex engine does. -/
def matchQuotedDigits : List Char → Option (List Char)
  | [] => none
  | c :: cs =>
    if c = '"' then
      let p := takeDigits cs
      match p.1, p.2 with
      | [], _ => matchQuotedDigits cs
      | ds, '.' :: _ => some ds
      | _, _ => matchQuotedDigits cs
    else matchQuotedDigits cs

/-- Return shape of `validateJavaPath`:
`{ isValid: true; path }` or `{ isValid: false; reason }`. -/
inductive JavaPathResult where
  | valid (path : String)
  | invalid (reason : String)
deriving DecidableEq, Repr

/-- `validateJavaPath(javaHomePath)` (extension.ts lines 219–258): checks,
in order and short-circuiting, that the root exists, `bin\java.exe`
exists, `bin\javac.exe` exists, that `"<javaExe>" -version` executes, that
its stderr contains a quoted dotted version, and that the parsed major
version lies in `[MIN_JAVA_VERSION, MAX_JAVA_VERSION]`. -/
def validateJavaPath (fsys : FileSystem) (ex : ExecOracle) (javaHomePath : String) : JavaPathResult :=
  if !fsys.pathExists javaHomePath then
    JavaPathResult.invalid "The specified directory does not exist."
  else
    let javaExe := pjoin (pjoin javaHomePath "bin") "java.exe"
    if !fsys.pathExists javaExe then
      JavaPathResult.invalid ("The file '" ++ javaExe ++ "' does not exist.")
    else
      let javacExe := pjoin (pjoin javaHomePath "bin") "javac.exe"
      if !fsys.pathExists javacExe then
        JavaPathResult.invalid "It is not a JDK (missing 'javac.exe')."
      else
        match ex.run ("\"" ++ javaExe ++ "\" -version") with
        | none => JavaPathResult.invalid "Could not execute 'java -version' successfully."
        | some out =>
          match matchQuotedDigits out.2.data with
          | some ds =>
            let majorVersion := parseDigits ds
            if MIN_JAVA_VERSION ≤ majorVersion ∧ majorVersion ≤ MAX_JAVA_VERSION then
              JavaPathResult.valid javaExe
            else
              JavaPathResult.invalid ("Version " ++ toString majorVersion ++
                " is outside supported range (" ++ toString MIN_JAVA_VERSION ++ "-" ++
                toString MAX_JAVA_VERSION ++ ").")
          | none => JavaPathResult.invalid "Could not determine Java version."

/-- JS truthiness of a `string | undefined` value: defined and non-empty. -/
def truthy : Option String → Bool
  | none => false
  | some s => s != ""

/-- The environment `findValidJavaRuntime` reads: the filesystem, the
command executor, the `kope-java.javaHome` configuration value
(`config.get<string>('javaHome')`), and `process.env.JAVA_HOME`. -/
structure Env where
  fsys : FileSystem
  exec : ExecOracle
  javaHomeSetting : Option String
  javaHomeEnvVar : Option String

/-- The consolidated failure message thrown when no source yields a valid
runtime (extension.ts lines 210–216). -/
def noJavaFoundMessage : String :=
  "KopeCode could not find a compatible Java Development Kit (JDK version " ++
  toString MIN_JAVA_VERSION ++ "-" ++ toString MAX_JAVA_VERSION ++ ") on your system.\n\n" ++
  "Please:\n" ++
  "1. Install a compatible JDK (Oracle JDK, OpenJDK, or Eclipse Temurin)\n" ++
  "2. Set the JAVA_HOME environment variable, or\n" ++
  "3. Configure the 'kope-java.javaHome' setting in VS Code"

/-- The `for (const javaPath of javaPaths)` loop of discovery step 3:
derive each JDK root by two `path.dirname` applications, validate, and
return the first valid executable. -/
def firstValidFromPathList (fsys : FileSystem) (ex : ExecOracle) : List String → Option String
  | [] => none
  | javaPath :: rest =>
    let jdkHome := dirname (dirname javaPath)
    match validateJavaPath fsys ex jdkHome with
    | JavaPathResult.valid p => some p
    | JavaPathResult.invalid _ => firstValidFromPathList fsys ex rest

/-- Step 3 of discovery: `where java`, split stdout on CRLF, validate each
candidate in order, return the first valid executable (extension.ts lines
190–206); any exhaustion or `where` failure falls to the consolidated
error (lines 208–216). -/
def searchPathStep (env : Env) : Except String String :=
  match env.exec.run "where java" with
  | none => Except.error noJavaFoundMessage
  | some out =>
    let javaPaths := (splitCRLF (trimChars out.1.data)).map String.mk
    match firstValidFromPathList env.fsys env.exec javaPaths with
    | some p => Except.ok p
    | none => Except.error noJavaFoundMessage

/-- Step 2 of discovery: `JAVA_HOME`, if truthy, is validated; valid wins,
invalid (unlike the explicit setting) falls through to the search path
(extension.ts lines 175–187). -/
def javaHomeStep (env : Env) : Except String String :=
  if truthy env.javaHomeEnvVar then
    match validateJavaPath env.fsys env.exec (env.javaHomeEnvVar.getD "") with
    | JavaPathResult.valid p => Except.ok p
    | JavaPathResult.invalid _ => searchPathStep env
  else searchPathStep env

/-- `findValidJavaRuntime` (extension.ts lines 156–217): explicit setting
first (truthy check), hard failure if it is set but invalid; otherwise
`JAVA_HOME`, then the search path. `Except.error` models a thrown `Error`. -/
def findValidJavaRuntime (env : Env) : Except String String :=
  if truthy env.javaHomeSetting then
    let userPath := env.javaHomeSetting.getD ""
    match validateJavaPath env.fsys env.exec userPath with
    | JavaPathResult.valid p => Except.ok p
    | JavaPathResult.invalid reason =>
      Except.error ("Invalid Java installation at '" ++ userPath ++ "'. " ++ reason)
  else javaHomeStep env

/-- Observable side effects of the supervisor functions. -/
inductive Event where
  | mkDataDir (path : String)
  | clientStarted (execPath : String)
  | clientStopped
  | errorShown (msg : String)
  | infoShown (msg : String)
deriving DecidableEq, Repr

/-- What `launchLanguageServer` reads besides the runtime path: the
filesystem, `context.extensionPath`, and the outcome of `client.start()`
(`none` = the spawn/handshake succeeds, `some m` = it fails and the caught
error has message `m`). -/
structure HostEnv where
  fsys : FileSystem
  extensionPath : String
  startError : Option String

/-- `path.join(context.extensionPath, 'server-data')`. -/
def serverDataPath (extensionPath : String) : String :=
  pjoin extensionPath "server-data"

/-- `path.join(context.extensionPath, 'server', 'jdt-language-server.jar')`. -/
def serverJarPath (extensionPath : String) : String :=
  pjoin (pjoin extensionPath "server") "jdt-language-server.jar"

/-- The `fs.mkdirSync` side effect guarded by `fs.existsSync` on the
server-data directory (extension.ts lines 63–65). -/
def dataDirEvents (henv : HostEnv) : List Event :=
  if henv.fsys.pathExists (serverDataPath henv.extensionPath) then []
  else [Event.mkDataDir (serverDataPath henv.extensionPath)]

/-- Whether the second list is a leading segment of the first. -/
def charsStartWith : List Char → List Char → Bool
  | _, [] => true
  | [], _ :: _ => false
  | c :: cs, d :: ds => c = d && charsStartWith cs ds

/-- Whether the second list occurs contiguously anywhere in the first. -/
def charsContain : List Char → List Char → Bool
  | [], needle => charsStartWith [] needle
  | c :: cs, needle => charsStartWith (c :: cs) needle || charsContain cs needle

/-- JS `hay.includes(needle)`. -/
def strIncludes (hay needle : String) : Bool :=
  charsContain hay.data needle.data

/-- The user-facing message built when `client.start()` throws
(extension.ts lines 140–147). -/
def startFailureMessage (m : String) : String :=
  "Failed to start Java Language Server. " ++
  (if strIncludes m "ENOENT" then
    "Java executable not found. Please verify the configured path."
  else if strIncludes m "spawn" then
    "Could not spawn Java process. Ensure it’s a valid executable."
  else if m != "" then m
  else "Unknown error.")

/-- `launchLanguageServer(context, javaCmdPath)` (extension.ts lines
58–152): create the data directory if absent, fail fatally if the server
jar is missing (before any client is constructed), otherwise construct and
store the client (the module-level `client` is set before `start` is
awaited) and start it; a start failure surfaces an error message and
rethrows it. Returns the emitted events, the new value of the module-level
`client`, and the thrown/returned outcome. -/
def launchLanguageServer (henv : HostEnv) (javaCmdPath : String)
    (client0 : Option String) : List Event × Option String × Except String Unit :=
  if !henv.fsys.pathExists (serverJarPath henv.extensionPath) then
    (dataDirEvents henv, client0,
      Except.error ("Java Language Server jar not found at: " ++
        serverJarPath henv.extensionPath ++ ".\n" ++
        "Please reinstall the KopeCode Java extension."))
  else
    let client1 : Option String := some javaCmdPath
    match henv.startError with
    | none =>
      (dataDirEvents henv ++ [Event.clientStarted javaCmdPath], client1, Except.ok ())
    | some m =>
      (dataDirEvents henv ++ [Event.errorShown (startFailureMessage m)], client1,
        Except.error (startFailureMessage m))

/-- `deactivate()` (extension.ts lines 51–56): `undefined` (no action)
when no client is live, otherwise `client.stop()`. -/
def deactivate (client0 : Option String) : List Event :=
  match client0 with
  | none => []
  | some _ => [Event.clientStopped]

/-- `restartLanguageServer(context)` (extension.ts lines 260–279): stop
the live client if any and clear the handle, re-run `findValidJavaRuntime`
from scratch, launch with the fresh result; any thrown error is caught and
surfaced as a restart-failure message. -/
def restartLanguageServer (env : Env) (henv : HostEnv)
    (client0 : Option String) : List Event × Option String :=
  let stopEvs : List Event :=
    match client0 with
    | some _ => [Event.clientStopped]
    | none => []
  match findValidJavaRuntime env with
  | Except.ok javaCmdPath =>
    match launchLanguageServer henv javaCmdPath none with
    | (evs, client2, Except.ok ()) =>
      (stopEvs ++ evs ++
        [Event.infoShown "✅ Java Language Server restarted successfully!"], client2)
    | (evs, client2, Except.error m) =>
      (stopEvs ++ evs ++
        [Event.errorShown ("❌ Failed to restart Java Language Server: " ++ m)], client2)
  | Except.error m =>
    (stopEvs ++
      [Event.errorShown ("❌ Failed to restart Java Language Server: " ++ m)], none)

/-! ### Concrete environments used as witnesses and counterexamples -/

/-- A filesystem holding exactly the given paths. -/
def fsOf (paths : List String) : FileSystem :=
  ⟨fun p => List.contains paths p⟩

/-- A full JDK root at `C:\jdk17` whose version query prints the banner on
stdout and nothing on stderr. -/
def fsJdk17 : FileSystem :=
  fsOf ["C:\\jdk17", "C:\\jdk17\\bin\\java.exe", "C:\\jdk17\\bin\\javac.exe"]

/-- Version query answering on stdout only. -/
def exBannerOnStdout : ExecOracle :=
  ⟨fun c =>
    if c = "\"C:\\jdk17\\bin\\java.exe\" -version" then
      some ("openjdk version \"17.0.1\" 2021-10-19", "")
    else none⟩

/-- Version query answering on stderr (the conventional channel). -/
def exBannerOnStderr : ExecOracle :=
  ⟨fun c =>
    if c = "\"C:\\jdk17\\bin\\java.exe\" -version" then
      some ("", "openjdk version \"17.0.1\" 2021-10-19")
    else none⟩

/-- A JDK 11 root at `C:\jdk11`. -/
def fsJdk11 : FileSystem :=
  fsOf ["C:\\jdk11", "C:\\jdk11\\bin\\java.exe", "C:\\jdk11\\bin\\javac.exe"]

/-- Version query reporting Java 11 on stderr. -/
def exJdk11 : ExecOracle :=
  ⟨fun c =>
    if c = "\"C:\\jdk11\\bin\\java.exe\" -version" then
      some ("", "java version \"11.0.2\" 2019-01-15 LTS")
    else none⟩

/-- A root at `C:\bad` with an interpreter but no compiler, alongside a
full JDK at `C:\good`. -/
def fsBadAndGood : FileSystem :=
  fsOf ["C:\\bad", "C:\\bad\\bin\\java.exe",
    "C:\\good", "C:\\good\\bin\\java.exe", "C:\\good\\bin\\javac.exe"]

/-- Oracle where `where java` finds the good JDK and its version query
reports Java 21 on stderr. -/
def exBadAndGood : ExecOracle :=
  ⟨fun c =>
    if c = "where java" then some ("C:\\good\\bin\\java.exe", "")
    else if c = "\"C:\\good\\bin\\java.exe\" -version" then
      some ("", "openjdk version \"21.0.1\" 2023-10-17")
    else none⟩

/-- A root at `C:\onlyjavac` whose directory and compiler exist but whose
interpreter is missing. -/
def fsMissingJava : FileSystem :=
  fsOf ["C:\\onlyjavac", "C:\\onlyjavac\\bin\\javac.exe"]

/-- An oracle on which every command fails (`cp.exec` reports an error). -/
def exAlwaysFails : ExecOracle := ⟨fun _ => none⟩

/-- Two JDKs on the search path: `C:\jdk11` (version 11) listed before
`C:\jdk17` (version 17). -/
def fsTwoOnPath : FileSystem :=
  fsOf ["C:\\jdk11", "C:\\jdk11\\bin\\java.exe", "C:\\jdk11\\bin\\javac.exe",
    "C:\\jdk17", "C:\\jdk17\\bin\\java.exe", "C:\\jdk17\\bin\\javac.exe"]

/-- Oracle for the two-entry search-path scenario: `where java` lists the
JDK 11 interpreter first, then the JDK 17 one. -/
def exTwoOnPath : ExecOracle :=
  ⟨fun c =>
    if c = "where java" then
      some ("C:\\jdk11\\bin\\java.exe\r\nC:\\jdk17\\bin\\java.exe", "")
    else if c = "\"C:\\jdk11\\bin\\java.exe\" -version" then
      some ("", "java version \"11.0.2\" 2019-01-15 LTS")
    else if c = "\"C:\\jdk17\\bin\\java.exe\" -version" then
      some ("", "openjdk version \"17.0.1\" 2021-10-19")
    else none⟩

/-- Two override targets for the restart scenario: full JDKs at `C:\jdkA`
and `C:\jdkB`. -/
def fsTwoJdks : FileSystem :=
  fsOf ["C:\\jdkA", "C:\\jdkA\\bin\\java.exe", "C:\\jdkA\\bin\\javac.exe",
    "C:\\jdkB", "C:\\jdkB\\bin\\java.exe", "C:\\jdkB\\bin\\javac.exe"]

/-- Oracle reporting Java 21 for both `C:\jdkA` and `C:\jdkB`. -/
def exTwoJdks : ExecOracle :=
  ⟨fun c =>
    if c = "\"C:\\jdkA\\bin\\java.exe\" -version" then
      some ("", "openjdk version \"21.0.1\" 2023-10-17")
    else if c = "\"C:\\jdkB\\bin\\java.exe\" -version" then
      some ("", "openjdk version \"21.0.1\" 2023-10-17")
    else none⟩

/-- Discovery environment whose override setting names `C:\jdkA`. -/
def envJdkA : Env := ⟨fsTwoJdks, exTwoJdks, some "C:\\jdkA", none⟩

/-- Discovery environment whose override setting names `C:\jdkB`. -/
def envJdkB : Env := ⟨fsTwoJdks, exTwoJdks, some "C:\\jdkB", none⟩

/-- A host environment whose extension directory holds the server jar and
the server-data directory. -/
def henvReady : HostEnv :=
  ⟨fsOf ["C:\\ext\\server\\jdt-language-server.jar", "C:\\ext\\server-data"],
    "C:\\ext", none⟩

/-- A host environment missing both the server jar and the server-data
directory. -/
def henvNoJar : HostEnv := ⟨fsOf [], "C:\\ext", none⟩

example : matchQuotedDigits "openjdk version \"17.0.1\" 2021".data = some ['1', '7'] := by decide
example : matchQuotedDigits "".data = none := by decide
example : parseDigits ['1', '7'] = 17 := by decide
example : dirname (dirname "C:\\jdk\\bin\\java.exe") = "C:\\jdk" := by decide
example : truthy (some "") = false := by decide
example :
    validateJavaPath fsJdk17 exBannerOnStderr "C:\\jdk17" =
      JavaPathResult.valid "C:\\jdk17\\bin\\java.exe" := by decide

/-! ### Claim theorems -/

/-- C4: validation of one candidate root performs its checks in the fixed
order root-exists, interpreter-exists, compiler-exists, version-query,
version-parse, short-circuiting on the first failure; in particular a root
missing the interpreter executable is invalid with a reason naming the
missing file regardless of whatever other files are present or what the
diagnostic subprocess would report. -/
theorem c4_validation_check_order :
    (∀ (fsys : FileSystem) (ex : ExecOracle) (root : String),
      fsys.pathExists root = false →
      validateJavaPath fsys ex root =
        JavaPathResult.invalid "The specified directory does not exist.") ∧
    (∀ (fsys : FileSystem) (ex : ExecOracle) (root : String),
      fsys.pathExists root = true →
      fsys.pathExists (pjoin (pjoin root "bin") "java.exe") = false →
      validateJavaPath fsys ex root =
        JavaPathResult.invalid
          ("The file '" ++ pjoin (pjoin root "bin") "java.exe" ++ "' does not exist.")) ∧
    (∀ (fsys : FileSystem) (ex : ExecOracle) (root : String),
      fsys.pathExists root = true →
      fsys.pathExists (pjoin (pjoin root "bin") "java.exe") = true →
      fsys.pathExists (pjoin (pjoin root "bin") "javac.exe") = false →
      validateJavaPath fsys ex root =
        JavaPathResult.invalid "It is not a JDK (missing 'javac.exe').") ∧
    (∀ (fsys : FileSystem) (ex : ExecOracle) (root : String),
      fsys.pathExists root = true →
      fsys.pathExists (pjoin (pjoin root "bin") "java.exe") = true →
      fsys.pathExists (pjoin (pjoin root "bin") "javac.exe") = true →
      ex.run ("\"" ++ pjoin (pjoin root "bin") "java.exe" ++ "\" -version") = none →
      validateJavaPath fsys ex root =
        JavaPathResult.invalid "Could not execute 'java -version' successfully.") ∧
    (∀ (fsys : FileSystem) (ex : ExecOracle) (root : String) (out : String × String),
      fsys.pathExists root = true →
      fsys.pathExists (pjoin (pjoin root "bin") "java.exe") = true →
      fsys.pathExists (pjoin (pjoin root "bin") "javac.exe") = true →
      ex.run ("\"" ++ pjoin (pjoin root "bin") "java.exe" ++ "\" -version") = some out →
      matchQuotedDigits out.2.data = none →
      validateJavaPath fsys ex root =
        JavaPathResult.invalid "Could not determine Java version.") := by
  refine ⟨?_, ?_, ?_, ?_, ?_⟩
  · intro fsys ex root h1
    simp [validateJavaPath, h1]
  · intro fsys ex root h1 h2
    simp [validateJavaPath, h1, h2]
  · intro fsys ex root h1 h2 h3
    simp [validateJavaPath, h1, h2, h3]
  · intro fsys ex root h1 h2 h3 h4
    simp [validateJavaPath, h1, h2, h3, h4]
  · intro fsys ex root out h1 h2 h3 h4 h5
    simp [validateJavaPath, h1, h2, h3, h4, h5]

/-- C4 witness: a root whose directory and compiler exist but whose
interpreter is missing is rejected with a reason naming the missing
interpreter file. -/
theorem c4_validation_check_order_witness :
    validateJavaPath fsMissingJava exBannerOnStderr "C:\\onlyjavac" =
      JavaPathResult.invalid
        ("The file '" ++ pjoin (pjoin "C:\\onlyjavac" "bin") "java.exe" ++ "' does not exist.") :=
  c4_validation_check_order.2.1 fsMissingJava exBannerOnStderr "C:\\onlyjavac"
    (by decide) (by decide)

/-- C3: once a candidate reaches the version check and the interpreter
reports a parseable major version, versions within
`[MIN_JAVA_VERSION, MAX_JAVA_VERSION]` validate to the interpreter
executable path, and versions outside it are rejected with a reason citing
the detected version and the supported range. -/
theorem c3_version_range (fsys : FileSystem) (ex : ExecOracle) (root : String)
    (out : String × String) (ds : List Char)
    (hroot : fsys.pathExists root = true)
    (hjava : fsys.pathExists (pjoin (pjoin root "bin") "java.exe") = true)
    (hjavac : fsys.pathExists (pjoin (pjoin root "bin") "javac.exe") = true)
    (hrun : ex.run ("\"" ++ pjoin (pjoin root "bin") "java.exe" ++ "\" -version") = some out)
    (hmatch : matchQuotedDigits out.2.data = some ds) :
    (MIN_JAVA_VERSION ≤ parseDigits ds ∧ parseDigits ds ≤ MAX_JAVA_VERSION →
      validateJavaPath fsys ex root =
        JavaPathResult.valid (pjoin (pjoin root "bin") "java.exe")) ∧
    (¬ (MIN_JAVA_VERSION ≤ parseDigits ds ∧ parseDigits ds ≤ MAX_JAVA_VERSION) →
      validateJavaPath fsys ex root =
        JavaPathResult.invalid ("Version " ++ toString (parseDigits ds) ++
          " is outside supported range (" ++ toString MIN_JAVA_VERSION ++ "-" ++
          toString MAX_JAVA_VERSION ++ ").")) := by
  constructor
  · intro h
    simp [validateJavaPath, hroot, hjava, hjavac, hrun, hmatch, h]
  · intro h
    simp [validateJavaPath, hroot, hjava, hjavac, hrun, hmatch, h]

/-- C3 witness: a JDK 11 root is rejected citing version 11 and the range
17–99. -/
theorem c3_version_range_witness :
    validateJavaPath fsJdk11 exJdk11 "C:\\jdk11" =
      JavaPathResult.invalid ("Version " ++ toString (parseDigits ['1', '1']) ++
        " is outside supported range (" ++ toString MIN_JAVA_VERSION ++ "-" ++
        toString MAX_JAVA_VERSION ++ ").") :=
  (c3_version_range fsJdk11 exJdk11 "C:\\jdk11"
    ("", "java version \"11.0.2\" 2019-01-15 LTS") ['1', '1']
    (by decide) (by decide) (by decide) (by decide) (by decide)).2 (by decide)

/-- C6: candidate validation always returns a structured result — valid
with a path or invalid with a reason — and a failure of the diagnostic
subprocess invocation is converted into the invalid-result shape. -/
theorem c6_validation_total_and_exec_caught :
    (∀ (fsys : FileSystem) (ex : ExecOracle) (root : String),
      (∃ p, validateJavaPath fsys ex root = JavaPathResult.valid p) ∨
      (∃ r, validateJavaPath fsys ex root = JavaPathResult.invalid r)) ∧
    (∀ (fsys : FileSystem) (ex : ExecOracle) (root : String),
      fsys.pathExists root = true →
      fsys.pathExists (pjoin (pjoin root "bin") "java.exe") = true →
      fsys.pathExists (pjoin (pjoin root "bin") "javac.exe") = true →
      ex.run ("\"" ++ pjoin (pjoin root "bin") "java.exe" ++ "\" -version") = none →
      validateJavaPath fsys ex root =
        JavaPathResult.invalid "Could not execute 'java -version' successfully.") := by
  constructor
  · intro fsys ex root
    cases h : validateJavaPath fsys ex root with
    | valid p => exact Or.inl ⟨p, rfl⟩
    | invalid r => exact Or.inr ⟨r, rfl⟩
  · intro fsys ex root h1 h2 h3 h4
    simp [validateJavaPath, h1, h2, h3, h4]

/-- C6 witness: a full JDK whose `java -version` invocation itself fails
(e.g. execute permission denied) yields the invalid-result shape. -/
theorem c6_validation_total_and_exec_caught_witness :
    validateJavaPath fsJdk17 exAlwaysFails "C:\\jdk17" =
      JavaPathResult.invalid "Could not execute 'java -version' successfully." :=
  c6_validation_total_and_exec_caught.2 fsJdk17 exAlwaysFails "C:\\jdk17"
    (by decide) (by decide) (by decide) (by decide)

/-- C1 counterexample: a candidate root that passes every existence and
executable check, whose diagnostic subprocess succeeds and prints the
version banner (first quoted dotted-version token `"17.`, major 17, in
range) on standard output with an empty stderr, is nevertheless rejected
with "Could not determine Java version." — contradicting the claim that
the banner may appear on either channel. -/
theorem c1_banner_on_stdout_rejected :
    exBannerOnStdout.run "\"C:\\jdk17\\bin\\java.exe\" -version" =
      some ("openjdk version \"17.0.1\" 2021-10-19", "") ∧
    matchQuotedDigits ("openjdk version \"17.0.1\" 2021-10-19" ++ "").data = some ['1', '7'] ∧
    MIN_JAVA_VERSION ≤ parseDigits ['1', '7'] ∧
    parseDigits ['1', '7'] ≤ MAX_JAVA_VERSION ∧
    validateJavaPath fsJdk17 exBannerOnStdout "C:\\jdk17" =
      JavaPathResult.invalid "Could not determine Java version." := by
  refine ⟨by decide, by decide, by decide, by decide, by decide⟩

/-- C1 (amended): version validation reads only the diagnostic channel
(stderr): a candidate passing the existence and executable checks
validates when the first quoted dotted-version token of stderr has its
leading integer in range, and the result is entirely independent of what
appears on standard output. -/
theorem c1_version_banner_stderr_only :
    (∀ (fsys : FileSystem) (ex : ExecOracle) (root : String)
      (out : String × String) (ds : List Char),
      fsys.pathExists root = true →
      fsys.pathExists (pjoin (pjoin root "bin") "java.exe") = true →
      fsys.pathExists (pjoin (pjoin root "bin") "javac.exe") = true →
      ex.run ("\"" ++ pjoin (pjoin root "bin") "java.exe" ++ "\" -version") = some out →
      matchQuotedDigits out.2.data = some ds →
      MIN_JAVA_VERSION ≤ parseDigits ds →
      parseDigits ds ≤ MAX_JAVA_VERSION →
      validateJavaPath fsys ex root =
        JavaPathResult.valid (pjoin (pjoin root "bin") "java.exe")) ∧
    (∀ (fsys : FileSystem) (ex ex' : ExecOracle) (root : String)
      (o1 o2 err : String),
      ex.run ("\"" ++ pjoin (pjoin root "bin") "java.exe" ++ "\" -version") = some (o1, err) →
      ex'.run ("\"" ++ pjoin (pjoin root "bin") "java.exe" ++ "\" -version") = some (o2, err) →
      validateJavaPath fsys ex root = validateJavaPath fsys ex' root) := by
  constructor
  · intro fsys ex root out ds h1 h2 h3 h4 h5 h6 h7
    simp [validateJavaPath, h1, h2, h3, h4, h5, h6, h7]
  · intro fsys ex ex' root o1 o2 err h h'
    cases h1 : fsys.pathExists root <;>
      cases h2 : fsys.pathExists (pjoin (pjoin root "bin") "java.exe") <;>
        cases h3 : fsys.pathExists (pjoin (pjoin root "bin") "javac.exe") <;>
          simp [validateJavaPath, h1, h2, h3, h, h']

/-- C1 witness: the same JDK root validates when the banner is printed on
stderr. -/
theorem c1_version_banner_stderr_only_witness :
    validateJavaPath fsJdk17 exBannerOnStderr "C:\\jdk17" =
      JavaPathResult.valid (pjoin (pjoin "C:\\jdk17" "bin") "java.exe") :=
  c1_version_banner_stderr_only.1 fsJdk17 exBannerOnStderr "C:\\jdk17"
    ("", "openjdk version \"17.0.1\" 2021-10-19") ['1', '7']
    (by decide) (by decide) (by decide) (by decide) (by decide) (by decide) (by decide)

/-- C2: a truthy user-configured javaHome that fails validation makes
discovery fail with an error naming the invalid path and the validation
reason, whatever the environment variable holds and whatever the search
path would have found. -/
theorem c2_invalid_override_hard_failure (fsys : FileSystem) (ex : ExecOracle)
    (s : String) (jh : Option String) (reason : String)
    (hs : s ≠ "")
    (hinv : validateJavaPath fsys ex s = JavaPathResult.invalid reason) :
    findValidJavaRuntime ⟨fsys, ex, some s, jh⟩ =
      Except.error ("Invalid Java installation at '" ++ s ++ "'. " ++ reason) := by
  simp [findValidJavaRuntime, truthy, hs, hinv]

/-- C2 witness: the override names a JDK missing its compiler while both
`JAVA_HOME` and the search path hold a fully valid JDK 21; discovery still
fails hard with the override's reason. -/
theorem c2_invalid_override_hard_failure_witness :
    findValidJavaRuntime ⟨fsBadAndGood, exBadAndGood, some "C:\\bad", some "C:\\good"⟩ =
      Except.error ("Invalid Java installation at '" ++ "C:\\bad" ++ "'. " ++
        "It is not a JDK (missing 'javac.exe').") :=
  c2_invalid_override_hard_failure fsBadAndGood exBadAndGood "C:\\bad" (some "C:\\good")
    "It is not a JDK (missing 'javac.exe')." (by decide) (by decide)

/-- C10: a javaHome configuration value that is present but an empty
string is treated exactly as an absent one — discovery behaves
identically, falling through to `JAVA_HOME` and the search path instead of
raising the hard configuration failure. -/
theorem c10_empty_override_treated_as_absent (fsys : FileSystem) (ex : ExecOracle)
    (jh : Option String) :
    findValidJavaRuntime ⟨fsys, ex, some "", jh⟩ =
      findValidJavaRuntime ⟨fsys, ex, none, jh⟩ := by
  simp [findValidJavaRuntime, javaHomeStep, searchPathStep, truthy]

/-- If every entry of a leading segment fails validation and the next
entry validates, the search-path loop returns that entry's executable. -/
theorem firstValidFromPathList_append (fsys : FileSystem) (ex : ExecOracle)
    (pre : List String) (c : String) (rest : List String) (p : String)
    (hpre : ∀ x ∈ pre, ∃ r,
      validateJavaPath fsys ex (dirname (dirname x)) = JavaPathResult.invalid r)
    (hc : validateJavaPath fsys ex (dirname (dirname c)) = JavaPathResult.valid p) :
    firstValidFromPathList fsys ex (pre ++ c :: rest) = some p := by
  induction pre with
  | nil => simp [firstValidFromPathList, hc]
  | cons x xs ih =>
    obtain ⟨r, hr⟩ := hpre x (by simp)
    simpa [firstValidFromPathList, hr] using ih (fun y hy => hpre y (by simp [hy]))

/-- C5: with no truthy override and no (or an invalid) `JAVA_HOME`,
discovery probes the `where java` candidates in order and returns the
validated executable of the first candidate that validates, skipping every
candidate that does not. -/
theorem c5_first_search_path_candidate (fsys : FileSystem) (ex : ExecOracle)
    (setting jh : Option String) (out : String × String)
    (pre : List String) (c : String) (rest : List String) (p : String)
    (hset : truthy setting = false)
    (hjh : truthy jh = false ∨ ∃ r,
      validateJavaPath fsys ex (jh.getD "") = JavaPathResult.invalid r)
    (hwhere : ex.run "where java" = some out)
    (hsplit : (splitCRLF (trimChars out.1.data)).map String.mk = pre ++ c :: rest)
    (hpre : ∀ x ∈ pre, ∃ r,
      validateJavaPath fsys ex (dirname (dirname x)) = JavaPathResult.invalid r)
    (hc : validateJavaPath fsys ex (dirname (dirname c)) = JavaPathResult.valid p) :
    findValidJavaRuntime ⟨fsys, ex, setting, jh⟩ = Except.ok p := by
  have hsearch : searchPathStep ⟨fsys, ex, setting, jh⟩ = Except.ok p := by
    simp [searchPathStep, hwhere, hsplit,
      firstValidFromPathList_append fsys ex pre c rest p hpre hc]
  have hstep : javaHomeStep ⟨fsys, ex, setting, jh⟩ = Except.ok p := by
    rcases hjh with h | ⟨r, hr⟩
    · simp [javaHomeStep, h, hsearch]
    · cases ht : truthy jh with
      | false => simp [javaHomeStep, ht, hsearch]
      | true => simp [javaHomeStep, ht, hr, hsearch]
  simpa [findValidJavaRuntime, hset] using hstep

/-- C5 witness: the spec's scenario — the search path lists a Java 11
interpreter before a Java 17 one; discovery skips the first and returns
the second. -/
theorem c5_first_search_path_candidate_witness :
    findValidJavaRuntime ⟨fsTwoOnPath, exTwoOnPath, none, none⟩ =
      Except.ok "C:\\jdk17\\bin\\java.exe" :=
  c5_first_search_path_candidate fsTwoOnPath exTwoOnPath none none
    ("C:\\jdk11\\bin\\java.exe\r\nC:\\jdk17\\bin\\java.exe", "")
    ["C:\\jdk11\\bin\\java.exe"] "C:\\jdk17\\bin\\java.exe" [] "C:\\jdk17\\bin\\java.exe"
    (by decide) (Or.inl (by decide)) (by decide) (by decide)
    (by
      intro x hx
      simp only [List.mem_singleton] at hx
      subst hx
      exact ⟨"Version 11 is outside supported range (17-99).", by decide⟩)
    (by decide)

/-- C7: restart stops the live client first, then re-runs discovery from
scratch and launches whatever executable the fresh discovery returns — the
previously used path plays no role in the result. -/
theorem c7_restart_runs_fresh_discovery (env : Env) (henv : HostEnv)
    (oldPath p : String)
    (hdisc : findValidJavaRuntime env = Except.ok p)
    (hjar : henv.fsys.pathExists (serverJarPath henv.extensionPath) = true)
    (hstart : henv.startError = none) :
    restartLanguageServer env henv (some oldPath) =
      (Event.clientStopped :: (dataDirEvents henv ++
        [Event.clientStarted p,
         Event.infoShown "✅ Java Language Server restarted successfully!"]), some p) := by
  simp [restartLanguageServer, hdisc, launchLanguageServer, hjar, hstart]

/-- C7 witness: two restarts differing only in the override setting
(`C:\jdkA` versus `C:\jdkB`) stop the old client and launch different
executables, each the fresh discovery result. -/
theorem c7_restart_runs_fresh_discovery_witness :
    restartLanguageServer envJdkA henvReady (some "C:\\jdkB\\bin\\java.exe") =
      (Event.clientStopped :: (dataDirEvents henvReady ++
        [Event.clientStarted "C:\\jdkA\\bin\\java.exe",
         Event.infoShown "✅ Java Language Server restarted successfully!"]),
        some "C:\\jdkA\\bin\\java.exe") ∧
    restartLanguageServer envJdkB henvReady (some "C:\\jdkA\\bin\\java.exe") =
      (Event.clientStopped :: (dataDirEvents henvReady ++
        [Event.clientStarted "C:\\jdkB\\bin\\java.exe",
         Event.infoShown "✅ Java Language Server restarted successfully!"]),
        some "C:\\jdkB\\bin\\java.exe") :=
  ⟨c7_restart_runs_fresh_discovery envJdkA henvReady "C:\\jdkB\\bin\\java.exe"
      "C:\\jdkA\\bin\\java.exe" rfl (by decide) rfl,
    c7_restart_runs_fresh_discovery envJdkB henvReady "C:\\jdkA\\bin\\java.exe"
      "C:\\jdkB\\bin\\java.exe" rfl (by decide) rfl⟩

/-- C8: a missing server jar makes the launch fail with the reinstallation
error before any client is constructed or start attempted (the only prior
side effect is the on-demand data-directory creation, which is never a
failure: with the jar present the launch proceeds regardless of whether
the data directory existed). -/
theorem c8_missing_jar_fatal_data_dir_on_demand :
    (∀ (henv : HostEnv) (p : String) (c0 : Option String),
      henv.fsys.pathExists (serverJarPath henv.extensionPath) = false →
      launchLanguageServer henv p c0 =
        (dataDirEvents henv, c0,
          Except.error ("Java Language Server jar not found at: " ++
            serverJarPath henv.extensionPath ++ ".\n" ++
            "Please reinstall the KopeCode Java extension."))) ∧
    (∀ (henv : HostEnv) (p : String) (c0 : Option String) (q : String),
      henv.fsys.pathExists (serverJarPath henv.extensionPath) = false →
      Event.clientStarted q ∉ (launchLanguageServer henv p c0).1) ∧
    (∀ (henv : HostEnv) (p : String) (c0 : Option String),
      henv.fsys.pathExists (serverDataPath henv.extensionPath) = false →
      Event.mkDataDir (serverDataPath henv.extensionPath) ∈ (launchLanguageServer henv p c0).1) ∧
    (∀ (henv : HostEnv) (p : String) (c0 : Option String),
      henv.fsys.pathExists (serverJarPath henv.extensionPath) = true →
      henv.startError = none →
      launchLanguageServer henv p c0 =
        (dataDirEvents henv ++ [Event.clientStarted p], some p, Except.ok ())) := by
  refine ⟨?_, ?_, ?_, ?_⟩
  · intro henv p c0 h
    simp [launchLanguageServer, h]
  · intro henv p c0 q h
    simp [launchLanguageServer, h, dataDirEvents]
  · intro henv p c0 h
    cases hj : henv.fsys.pathExists (serverJarPath henv.extensionPath) <;>
      cases hs : henv.startError <;>
        simp [launchLanguageServer, hj, hs, dataDirEvents, h]
  · intro henv p c0 h1 h2
    simp [launchLanguageServer, h1, h2]

/-- C8 witness: with neither the jar nor the data directory on disk, the
launch creates nothing but the data-directory request, leaves the client
absent, and fails with the reinstallation message. -/
theorem c8_missing_jar_fatal_data_dir_on_demand_witness :
    launchLanguageServer henvNoJar "C:\\jdk17\\bin\\java.exe" none =
      (dataDirEvents henvNoJar, none,
        Except.error ("Java Language Server jar not found at: " ++
          serverJarPath "C:\\ext" ++ ".\n" ++
          "Please reinstall the KopeCode Java extension.")) :=
  c8_missing_jar_fatal_data_dir_on_demand.1 henvNoJar "C:\\jdk17\\bin\\java.exe" none
    (by decide)

/-- C9: deactivation with no live client is a no-op that reports no error
and performs no action; with a live client it stops exactly that client. -/
theorem c9_deactivate_idle_noop :
    deactivate none = [] ∧ ∀ c0 : String, deactivate (some c0) = [Event.clientStopped] :=
  ⟨rfl, fun _ => rfl⟩
